import Mathlib

/-! Shallow embedding of pepperoni/output.py (and the parts of
pepperoni/database.py used by it).  Python objects become Lean structures,
methods become pure functions returning the new state together with the
ordered list of observable side effects and an optional propagated
exception; external systems (file system, SMTP server, database server,
owning logger) are an explicit environment. -/

/-- Python exceptions raised by the embedded code. -/
inductive PyError where
  | attributeError (msg : String)
  | typeError (msg : String)
  | valueError (msg : String)
  | nameError (msg : String)
  | connectionError
  | osError
  deriving DecidableEq

/-- Observable side effects, listed in the order they are performed. -/
inductive Effect where
  | consoleWrite (text : String)
  | mkdirs (d : String)
  | openAppend (path : String)
  | fileWrite (path : String) (text : String)
  | fileFlush (path : String)
  | smtpConnect (host : String) (port : Int)
  | startTls
  | smtpLogin (user : String)
  | smtpQuit
  | readFile (path : String)
  | smtpSend (toLine : String) (subject : String)
  | dbConnect
  | dbClose
  | dbInsert (values : List (String × String))
  | dbUpdate (key : Nat) (values : List (String × String))
  | warning
  deriving DecidableEq

/-- A table proxy obtained from schema introspection: its name and the list
of primary key columns (sqlalchemy Table objects, at the granularity this
embedding needs). -/
structure TableProxy where
  name : String
  primaryKeyCols : List String
  deriving DecidableEq

/-- The environment: behaviour of the operating system, of the SMTP server
and of the database server, plus the data read from the owning logger, all
external to output.py. -/
structure Env where
  smtpOk : Bool := true
  loginOk : Bool := true
  dbOk : Bool := true
  mkdirsOk : Bool := true
  openOk : Bool := true
  writeOk : Bool := true
  readOk : Bool := true
  dirExists : String → Bool := fun _ => true
  fileSize : String → Nat := fun _ => 0
  dirname : String → String := fun _ => ""
  now : String := ""
  fmt : String → String := id
  lookupTable : String → Option TableProxy := fun _ => none
  isWin : Bool := false
  abspath : String → String := id
  app : String := ""
  header : String := ""

/-- A Python argument that may be absent (None), of the expected type, or of
some other type (so an isinstance check fails although it is not None). -/
inductive PyArg (α : Type) where
  | none
  | val (a : α)
  | other
  deriving DecidableEq

/-- Python x is not None. -/
def PyArg.isNotNone {α : Type} : PyArg α → Bool
  | .none => false
  | _ => true

/-- Update a field the way the pattern if isinstance(x, T) is True then
self.f = x does. -/
def PyArg.store {α : Type} : PyArg α → Option α → Option α
  | .val a, _ => some a
  | _, old => old

/-- Read the argument when it passes the isinstance check, else keep the
old value. -/
def PyArg.getD {α : Type} : PyArg α → α → α
  | .val a, _ => a
  | _, old => old

/-- Python str.split(sep) for a single-character separator, accumulator
version. -/
def pySplitAux (sep : Char) : List Char → List Char → List String
  | [], acc => [String.mk acc.reverse]
  | c :: cs, acc =>
    if c = sep then String.mk acc.reverse :: pySplitAux sep cs []
    else pySplitAux sep cs (c :: acc)

/-- Python str.split(sep) for a single-character separator. -/
def pySplit (s : String) (sep : Char) : List String := pySplitAux sep s.toList []

/-- Python s.replace(c, empty string): removes every occurrence of c. -/
def pyRemove (s : String) (c : Char) : String :=
  String.mk (s.toList.filter (fun x => x ≠ c))

/-- Python c in s for a single character. -/
def pyContains (s : String) (c : Char) : Bool := s.toList.contains c

/-- Python str.lower. -/
def pyLower (s : String) : String := String.mk (s.toList.map Char.toLower)

/-- Python sep.join(xs). -/
def pyJoin (sep : String) : List String → String
  | [] => ""
  | [x] => x
  | x :: y :: xs => x ++ sep ++ pyJoin sep (y :: xs)

/-- Remove surrounding spaces from a string (used only by the
specification-side definition of recipient normalization). -/
def trimSpaces (s : String) : String :=
  String.mk (((s.toList.dropWhile (fun c => c = ' ')).reverse.dropWhile
    (fun c => c = ' ')).reverse)

/-- Python dict item assignment d[k] = v on an insertion-ordered dict
represented as an association list. -/
def setItem (vals : List (String × String)) (k v : String) :
    List (String × String) :=
  if vals.any (fun p => p.1 = k) then
    vals.map (fun p => if p.1 = k then (k, v) else p)
  else vals ++ [(k, v)]

/-- Apply a sequence of dict item assignments. -/
def setItems (row vals : List (String × String)) : List (String × String) :=
  vals.foldl (fun r p => setItem r p.1 p.2) row

/-- The you_shall_not_pass decorator from output.py: the wrapped method body
runs only while the output status is true; otherwise nothing happens at
all. -/
def you_shall_not_pass {σ : Type} (stat : σ → Bool)
    (func : σ → σ × List Effect × Option PyError) (s : σ) :
    σ × List Effect × Option PyError :=
  if stat s then func s else (s, [], none)

/-- Console output: stateless beyond the status flag. -/
structure ConsoleState where
  status : Bool
  deriving DecidableEq

/-- Body of Console.write: print the record to stdout with no newline. -/
def Console.writeRaw (cs : ConsoleState) (text : String) :
    ConsoleState × List Effect × Option PyError :=
  (cs, [Effect.consoleWrite text], none)

/-- Console.write, gated. -/
def Console.write (cs : ConsoleState) (text : String) :
    ConsoleState × List Effect × Option PyError :=
  you_shall_not_pass ConsoleState.status (fun s => Console.writeRaw s text) cs

/-- Output.open inherited by Console. -/
def Console.openOutput (cs : ConsoleState) : ConsoleState :=
  { cs with status := true }

/-- Output.close inherited by Console. -/
def Console.closeOutput (cs : ConsoleState) : ConsoleState :=
  { cs with status := false }

/-- File output state: configuration fields, the resolved path, the lazily
opened append handler (recorded as the path it is open on) and the
modified/size statistics. -/
structure FileState where
  status : Bool
  dir : String
  name : String
  ext : String
  path : Option String
  handler : Option String
  modified : Option String
  size : Option Nat
  deriving DecidableEq

/-- Body of File.new: recompute the output path from dir, name and ext,
substituting the root and datetime placeholders (the env.fmt call), and
purge the handler and the file statistics. -/
def File.newRaw (fs : FileState) (env : Env) :
    FileState × List Effect × Option PyError :=
  let tail := fs.name ++ "." ++ fs.ext
  let path := fs.dir ++ "/" ++ tail
  ({ fs with path := some (env.fmt path), handler := none,
             modified := none, size := none }, [], none)

/-- File.new, gated. -/
def File.new (fs : FileState) (env : Env) :
    FileState × List Effect × Option PyError :=
  you_shall_not_pass FileState.status (fun s => File.newRaw s env) fs

/-- File.configure: update only the string-valued fields that were provided
and, when any argument was given at all, recompute the path via new(). -/
def File.configure (fs : FileState) (dir name ext : PyArg String) (env : Env) :
    FileState × List Effect × Option PyError :=
  let fs := match dir with | .val d => { fs with dir := d } | _ => fs
  let fs := match name with | .val n => { fs with name := n } | _ => fs
  let fs := match ext with | .val e => { fs with ext := e } | _ => fs
  if dir.isNotNone || name.isNotNone || ext.isNotNone then File.new fs env
  else (fs, [], none)

/-- Final part of File.write shared by both handler states: write the
record, flush, and refresh the modified time and size statistics. -/
def File.writeCommit (fs : FileState) (p text : String) (effs : List Effect)
    (env : Env) : FileState × List Effect × Option PyError :=
  if env.writeOk then
    ({ fs with modified := some env.now, size := some (env.fileSize p) },
      effs ++ [Effect.fileWrite p text, Effect.fileFlush p], none)
  else (fs, effs, some PyError.osError)

/-- Body of File.write: open the handler on the current path first if needed
(creating missing directories), then write, flush and update statistics. -/
def File.writeRaw (fs : FileState) (text : String) (env : Env) :
    FileState × List Effect × Option PyError :=
  match fs.handler with
  | some p => File.writeCommit fs p text [] env
  | none =>
    match fs.path with
    | none => (fs, [], some (PyError.attributeError "_path"))
    | some p =>
      let d := env.dirname p
      if env.dirExists d then
        if env.openOk then
          File.writeCommit { fs with handler := some p } p text
            [Effect.openAppend p] env
        else (fs, [Effect.openAppend p], some PyError.osError)
      else
        if env.mkdirsOk then
          if env.openOk then
            File.writeCommit { fs with handler := some p } p text
              [Effect.mkdirs d, Effect.openAppend p] env
          else (fs, [Effect.mkdirs d, Effect.openAppend p],
            some PyError.osError)
        else (fs, [Effect.mkdirs d], some PyError.osError)

/-- File.write, gated. -/
def File.write (fs : FileState) (text : String) (env : Env) :
    FileState × List Effect × Option PyError :=
  you_shall_not_pass FileState.status (fun s => File.writeRaw s text env) fs

/-- Output.open inherited by File. -/
def File.openOutput (fs : FileState) : FileState := { fs with status := true }

/-- Output.close inherited by File. -/
def File.closeOutput (fs : FileState) : FileState := { fs with status := false }

/-- Email output state: configuration fields and whether an SMTP session
object has been created (the _server attribute). -/
structure EmailState where
  status : Bool
  address : Option String
  host : Option String
  port : Option Int
  tls : Option Bool
  user : Option String
  password : Option String
  recipients : Option (List String)
  server : Bool
  deriving DecidableEq

/-- A Python value that is either a string or a list of strings, as accepted
for recipients, text and attachment arguments. -/
inductive StrOrList where
  | s (x : String)
  | l (xs : List String)
  deriving DecidableEq

/-- Python truthiness of a string or list value. -/
def StrOrList.truthy : StrOrList → Bool
  | .s x => x ≠ ""
  | .l xs => xs ≠ []

/-- Wrap a bare value into a list the way if isinstance(x, list) is False
then x = [x] does. -/
def StrOrList.asList : StrOrList → List String
  | .s x => [x]
  | .l xs => xs

/-- Arguments of Email.configure. -/
structure EmailArgs where
  address : PyArg String := .none
  host : PyArg String := .none
  port : PyArg Int := .none
  tls : PyArg Bool := .none
  user : PyArg String := .none
  password : Option String := none
  recipients : PyArg StrOrList := .none
  deriving DecidableEq

/-- Recipient normalization performed by Email.configure: a string holding a
comma has every space removed and is then split at the commas; a plain
string becomes a singleton list; a list is stored as given. -/
def normalizeRecipients : StrOrList → List String
  | .s x => if pyContains x ',' then pySplit (pyRemove x ' ') ',' else [x]
  | .l xs => xs

/-- Specification-side definition for comparison: recipient normalization as
the specification words it, splitting a comma-joined string at the commas
and trimming each part of surrounding spaces only. -/
def specNormalizeRecipients : StrOrList → List String
  | .s x => if pyContains x ',' then (pySplit x ',').map trimSpaces else [x]
  | .l xs => xs

/-- Field updates performed by Email.configure before the connection
attempt. -/
def Email.applyFields (st : EmailState) (a : EmailArgs) : EmailState :=
  let st := { st with host := a.host.store st.host }
  let st := { st with port := a.port.store st.port }
  let st := { st with tls := a.tls.store st.tls }
  let st := { st with user := a.user.store st.user }
  let st := { st with address := a.address.store st.address }
  match a.recipients with
  | .val r => { st with recipients := some (normalizeRecipients r) }
  | _ => st

/-- Body of Email.connect: check host and port, open the SMTP session,
optionally upgrade to TLS, and log in when a user is configured (which
requires a password). -/
def Email.connectRaw (st : EmailState) (password : Option String) (env : Env) :
    EmailState × List Effect × Option PyError :=
  match st.host with
  | none => (st, [], some (PyError.attributeError "incorrect host"))
  | some h =>
    match st.port with
    | none => (st, [], some (PyError.attributeError "incorrect port"))
    | some p =>
      if env.smtpOk then
        let st := { st with server := true }
        let effs := if st.tls = some true then
            [Effect.smtpConnect h p, Effect.startTls]
          else [Effect.smtpConnect h p]
        match st.user with
        | none => (st, effs, none)
        | some u =>
          match password with
          | none => (st, effs,
              some (PyError.attributeError "can not login without a password"))
          | some _ =>
            if env.loginOk then (st, effs ++ [Effect.smtpLogin u], none)
            else (st, effs ++ [Effect.smtpLogin u], some PyError.connectionError)
      else (st, [Effect.smtpConnect h p], some PyError.connectionError)

/-- Email.connect, gated. -/
def Email.connect (st : EmailState) (password : Option String) (env : Env) :
    EmailState × List Effect × Option PyError :=
  you_shall_not_pass EmailState.status
    (fun s => Email.connectRaw s password env) st

/-- Email.configure: update the provided fields, normalize recipients, and
when any of host, port, user or password was passed, try to (re)connect;
a failed connection is swallowed, reported as a warning to the owning
logger, and force-disables the sink. -/
def Email.configure (st : EmailState) (a : EmailArgs) (env : Env) :
    EmailState × List Effect × Option PyError :=
  let st1 := Email.applyFields st a
  if a.host.isNotNone || a.port.isNotNone || a.user.isNotNone ||
      a.password.isSome then
    match Email.connect st1 a.password env with
    | (st2, effs, some _) =>
      ({ st2 with status := false }, effs ++ [Effect.warning], none)
    | (st2, effs, none) => (st2, effs, none)
  else (st1, [], none)

/-- Body of Email.disconnect: quit the session when one exists. -/
def Email.disconnectRaw (st : EmailState) :
    EmailState × List Effect × Option PyError :=
  if st.server then (st, [Effect.smtpQuit], none) else (st, [], none)

/-- Email.disconnect, gated. -/
def Email.disconnect (st : EmailState) :
    EmailState × List Effect × Option PyError :=
  you_shall_not_pass EmailState.status Email.disconnectRaw st

/-- Python recipients or self.recipients, with Python truthiness. -/
def resolveRecipients (arg : Option StrOrList)
    (field : Option (List String)) : Option StrOrList :=
  match arg with
  | some v => if v.truthy then some v else field.map StrOrList.l
  | none => field.map StrOrList.l

/-- The To header line: a list is joined with comma and space. -/
def recipientsLine : StrOrList → String
  | .l xs => pyJoin ", " xs
  | .s x => x

/-- Read every attachment file in order; a failed read raises after the
reads already performed. -/
def readAttachments (paths : List String) (env : Env) :
    List Effect × Option PyError :=
  match paths with
  | [] => ([], none)
  | p :: rest =>
    if env.readOk then
      let r := readAttachments rest env
      (Effect.readFile p :: r.1, r.2)
    else ([Effect.readFile p], some PyError.osError)

/-- Body of Email.send: resolve the recipients; only when the resolution is
not None, build the multipart message, attach the text parts and the
attachments, and transmit it through the SMTP session. -/
def Email.sendRaw (st : EmailState) (subject : String) (text : Option StrOrList)
    (recipients : Option StrOrList) (attachment : Option StrOrList)
    (env : Env) : EmailState × List Effect × Option PyError :=
  match resolveRecipients recipients st.recipients with
  | none => (st, [], none)
  | some r =>
    let toLine := recipientsLine r
    let ar :=
      match attachment with
      | none => ([], none)
      | some a => readAttachments a.asList env
    match ar.2 with
    | some e => (st, ar.1, some e)
    | none =>
      if st.server then (st, ar.1 ++ [Effect.smtpSend toLine subject], none)
      else (st, ar.1, some (PyError.attributeError "_server"))

/-- Email.send, gated. -/
def Email.send (st : EmailState) (subject : String) (text : Option StrOrList)
    (recipients : Option StrOrList) (attachment : Option StrOrList)
    (env : Env) : EmailState × List Effect × Option PyError :=
  you_shall_not_pass EmailState.status
    (fun s => Email.sendRaw s subject text recipients attachment env) st

/-- Email.write: gated no-op. -/
def Email.write (st : EmailState) (record : String) :
    EmailState × List Effect × Option PyError :=
  you_shall_not_pass EmailState.status (fun s => (s, [], none)) st

/-- Output.open inherited by Email. -/
def Email.openOutput (st : EmailState) : EmailState := { st with status := true }

/-- Output.close inherited by Email. -/
def Email.closeOutput (st : EmailState) : EmailState := { st with status := false }

/-- HTML output: a gated no-op sink in this version. -/
structure HTMLState where
  status : Bool
  deriving DecidableEq

/-- HTML.write: gated no-op. -/
def HTML.write (hs : HTMLState) (record : String) :
    HTMLState × List Effect × Option PyError :=
  you_shall_not_pass HTMLState.status (fun s => (s, [], none)) hs

/-- Output.open inherited by HTML. -/
def HTML.openOutput (hs : HTMLState) : HTMLState := { hs with status := true }

/-- Output.close inherited by HTML. -/
def HTML.closeOutput (hs : HTMLState) : HTMLState := { hs with status := false }

/-- A dynamically typed Python value, as found in a kwargs dict. -/
inductive PyVal where
  | vNone
  | vStr (s : String)
  | vInt (n : Int)
  | vBool (b : Bool)
  | vEngine (n : Nat)
  | vOther
  deriving DecidableEq

/-- Python x is None. -/
def PyVal.isNone : PyVal → Bool
  | .vNone => true
  | _ => false

/-- Python str(x), at the precision the connection url needs. -/
def PyVal.str : PyVal → String
  | .vNone => "None"
  | .vStr s => s
  | .vInt n => toString n
  | .vBool b => if b then "True" else "False"
  | .vEngine _ => "Engine"
  | .vOther => "object"

/-- Extract an optional string the way the paired checks in
Database.init do: None stays None, a string is kept, anything else
raises. -/
def PyVal.asStrOpt (v : PyVal) (msg : String) :
    Except PyError (Option String) :=
  match v with
  | .vNone => .ok none
  | .vStr s => .ok (some s)
  | _ => .error (.attributeError msg)

/-- A sqlalchemy engine: either created from a connection url or supplied
ready-made. -/
inductive EngineModel where
  | created (url : String)
  | external (n : Nat)
  deriving DecidableEq

/-- The Database object from pepperoni/database.py, with the fields its
constructor stores. -/
structure DatabaseModel where
  vendor : Option String
  driver : Option String
  path : Option String
  host : Option String
  port : Option PyVal
  sid : Option String
  service : Option String
  user : Option String
  engine : EngineModel
  deriving DecidableEq

/-- Embedding of Database construction from pepperoni/database.py: validate
the options, build the connection url (sqlite against the file system path,
other vendors against host, port, sid or service name, user and password)
and create or adopt the engine. -/
def Database.init (vendor driver engine path host port sid service user
    password : PyVal) (env : Env) : Except PyError DatabaseModel := do
  let vendorO ← vendor.asStrOpt "incorrect vendor name"
  let driverO ← driver.asStrOpt "incorrect driver name"
  if vendorO = some "sqlite" then
    let pathO ← path.asStrOpt "incorrect path"
    let pathO := pathO.map env.abspath
    let url :=
      match pathO with
      | none => "sqlite://"
      | some pth => if env.isWin then "sqlite:///" ++ pth
        else "sqlite:////" ++ pth
    let eng := match engine with
      | .vEngine n => EngineModel.external n
      | _ => EngineModel.created url
    return { vendor := vendorO, driver := driverO, path := pathO,
             host := none, port := none, sid := none, service := none,
             user := none, engine := eng }
  else
    match vendorO with
    | some v =>
      let hostO ← host.asStrOpt "incorrect host"
      let portO ← (match port with
        | .vNone => Except.ok none
        | .vStr s => Except.ok (some (PyVal.vStr s))
        | .vInt n => Except.ok (some (PyVal.vInt n))
        | _ => Except.error (PyError.attributeError "incorrect port"))
      let ids ← (if !sid.isNone || !service.isNone then do
          let s1 ← sid.asStrOpt "incorrect sid"
          let s2 ← service.asStrOpt "incorrect service"
          Except.ok (s1, s2)
        else Except.error
          (PyError.attributeError "neither SID nor Service name are known"))
      let userO ← user.asStrOpt "can not login without a username"
      let _ ← (match password with
        | .vStr s => Except.ok s
        | _ => Except.error
            (PyError.attributeError "can not loging without a password"))
      let credentials := user.str ++ ":" ++ password.str
      let address := host.str ++ ":" ++ port.str
      let idPart := match ids.1 with
        | some s => s
        | none => "?service_name=" ++ service.str
      let url := match driverO with
        | none => v ++ "://" ++ credentials ++ "@" ++ address ++ "/" ++ idPart
        | some d =>
          v ++ "+" ++ d ++ "://" ++ credentials ++ "@" ++ address ++ "/" ++ idPart
      let eng := match engine with
        | .vEngine n => EngineModel.external n
        | _ => EngineModel.created url
      return { vendor := vendorO, driver := driverO, path := none,
               host := hostO, port := portO, sid := ids.1, service := ids.2,
               user := userO, engine := eng }
    | none =>
      match engine with
      | .vEngine n =>
        return { vendor := none, driver := driverO, path := none,
                 host := none, port := none, sid := none, service := none,
                 user := none, engine := EngineModel.external n }
      | _ => Except.error (PyError.nameError "url")

/-- The kwargs consulted by Table.configure through kwargs.get. -/
structure DbKwargs where
  vendor : PyVal := .vNone
  engine : PyVal := .vNone
  host : PyVal := .vNone
  port : PyVal := .vNone
  sid : PyVal := .vNone
  service : PyVal := .vNone
  path : PyVal := .vNone
  user : PyVal := .vNone
  password : PyVal := .vNone
  deriving DecidableEq

/-- Database construction as performed inside Table.configure when no
already-configured database object and no database argument are available:
the engine kwarg wins over the address options. -/
def buildDatabase (kw : DbKwargs) (env : Env) : Except PyError DatabaseModel :=
  if kw.engine.isNone then
    Database.init kw.vendor .vNone .vNone kw.path kw.host kw.port kw.sid
      kw.service kw.user kw.password env
  else
    Database.init kw.vendor .vNone kw.engine .vNone .vNone .vNone .vNone
      .vNone .vNone .vNone env

/-- Table output state. primary_key None is the Fresh state of the logging
session; a recorded key is the Bound state. -/
structure TableState where
  status : Bool
  name : Option String
  database : Option DatabaseModel
  proxy : Option TableProxy
  date_column : Option String
  primary_key : Option Nat
  primary_key_column : Option String
  deriving DecidableEq

/-- The rows of the logging table, keyed by the generated primary key, plus
the next key the database will generate. -/
structure DbWorld where
  rows : List (Nat × List (String × String))
  nextKey : Nat
  deriving DecidableEq

/-- Embedding of the primary key resolution of the Table sink: with a proxy
present, exactly one primary key column is required, anything else raises a
ValueError. -/
def Table.getPrimaryKeyColumn (proxy : Option TableProxy) :
    Except PyError (Option String) :=
  match proxy with
  | none => .ok none
  | some tp =>
    match tp.primaryKeyCols with
    | [c] => .ok (some c)
    | _ => .error (.valueError "primary key number should be 1")

/-- Embedding of Table.configure: lower-cased name update, database
resolution (reuse, adopt the argument, or build from the vendor kwargs),
health check (connect then immediately close, with a failure swallowed into
a warning plus force-disable), table proxy declaration and primary key
resolution. -/
def Table.configure (st : TableState) (name : PyArg String)
    (database : Option DatabaseModel) (proxy : Option TableProxy)
    (date_column : Option String) (kw : DbKwargs) (env : Env) :
    TableState × List Effect × Option PyError :=
  let st := match name with
    | .val s => { st with name := some (pyLower s) }
    | _ => st
  let res : Except PyError TableState :=
    match st.database with
    | some _ => .ok st
    | none =>
      match database with
      | some d => .ok { st with database := some d }
      | none =>
        if kw.vendor.isNone then .ok st
        else
          match buildDatabase kw env with
          | .ok d => .ok { st with database := some d }
          | .error e => .error e
  match res with
  | .error e => (st, [], some e)
  | .ok st =>
    match st.database with
    | none => (st, [], none)
    | some _ =>
      if env.dbOk then
        let effs := [Effect.dbConnect, Effect.dbClose]
        let decl : TableState × Option PyError :=
          match proxy with
          | some tp => ({ st with name := some tp.name, proxy := some tp }, none)
          | none =>
            match name with
            | .val s =>
              match env.lookupTable s with
              | some tp => ({ st with name := some s, proxy := some tp }, none)
              | none => ({ st with name := some s },
                  some (PyError.valueError "no such table"))
            | _ => (st, some (PyError.typeError "name must str"))
        match decl.2 with
        | some e => (decl.1, effs, some e)
        | none =>
          let st := decl.1
          let st := match date_column with
            | some dc => { st with date_column := some dc }
            | none => st
          match Table.getPrimaryKeyColumn st.proxy with
          | .error e => (st, effs, some e)
          | .ok pkc =>
            ({ st with primary_key_column := pkc, primary_key := none },
              effs, none)
      else ({ st with status := false }, [Effect.dbConnect, Effect.warning], none)

/-- Embedding of Table construction: reset the fields and delegate to
configure. Note that the extra keyword arguments accepted by the
constructor are not forwarded to configure, so the vendor options of the
db configuration dict are dropped here. -/
def Table.init (root : Unit) (status : Bool) (name : PyArg String)
    (database : Option DatabaseModel) (proxy : Option TableProxy)
    (date_column : Option String) (kwargs : DbKwargs) (env : Env) :
    TableState × List Effect × Option PyError :=
  let st : TableState :=
    { status := status, name := none, database := none, proxy := none,
      date_column := none, primary_key := none, primary_key_column := none }
  Table.configure st name database proxy date_column {} env

/-- Table.new, gated: start a new logging record by clearing the primary
key, back to the Fresh state. -/
def Table.new (st : TableState) : TableState × List Effect × Option PyError :=
  you_shall_not_pass TableState.status
    (fun s => ({ s with primary_key := none }, [], none)) st

/-- The date_column injection performed by Table.write: the current
timestamp overrides any caller-supplied value of that field. -/
def Table.applyDate (st : TableState) (vals : List (String × String))
    (env : Env) : List (String × String) :=
  match st.date_column with
  | some dc => setItem vals dc env.now
  | none => vals

/-- Body of Table.write: connect, inject the date column, insert a new row
when no primary key is recorded (capturing the generated key), otherwise
update the row matching the recorded primary key, then close the
connection. -/
def Table.writeRaw (st : TableState) (w : DbWorld)
    (vals : List (String × String)) (env : Env) :
    TableState × DbWorld × List Effect × Option PyError :=
  match st.database with
  | none => (st, w, [], some (PyError.attributeError "connect"))
  | some _ =>
    if env.dbOk then
      let vals := Table.applyDate st vals env
      match st.primary_key with
      | none =>
        match st.proxy with
        | none => (st, w, [Effect.dbConnect], some (PyError.attributeError "proxy"))
        | some _ =>
          let key := w.nextKey
          ({ st with primary_key := some key },
           { rows := w.rows ++ [(key, vals)], nextKey := w.nextKey + 1 },
           [Effect.dbConnect, Effect.dbInsert vals, Effect.dbClose], none)
      | some k =>
        match st.proxy with
        | none => (st, w, [Effect.dbConnect], some (PyError.attributeError "proxy"))
        | some _ =>
          (st,
           { w with rows := w.rows.map (fun r =>
               if st.primary_key_column.isSome && r.1 == k then
                 (r.1, setItems r.2 vals)
               else r) },
           [Effect.dbConnect, Effect.dbUpdate k vals, Effect.dbClose], none)
    else (st, w, [Effect.dbConnect], some PyError.connectionError)

/-- Table.write, gated (with the table rows threaded through). -/
def Table.write (st : TableState) (w : DbWorld)
    (vals : List (String × String)) (env : Env) :
    TableState × DbWorld × List Effect × Option PyError :=
  if st.status then Table.writeRaw st w vals env else (st, w, [], none)

/-- Output.open inherited by Table. -/
def Table.openOutput (st : TableState) : TableState := { st with status := true }

/-- Output.close inherited by Table. -/
def Table.closeOutput (st : TableState) : TableState := { st with status := false }

/-- A record handed to the router: either a plain string or a structured
Record object. -/
inductive LogRecord where
  | str (s : String)
  | record (rendered : String)
  deriving DecidableEq

/-- Modelled from the spec: pepperoni/record.py is not under src; the
specification treats rendering as an opaque render(record) to text call, so
a structured record carries the text its create() method returns. -/
def renderRecord : LogRecord → String
  | .str s => s
  | .record r => r

/-- The output root owning one instance of each sink kind. -/
structure RootState where
  status : Bool
  console : ConsoleState
  file : FileState
  email : EmailState
  html : HTMLState
  table : TableState
  deriving DecidableEq

/-- Body of Root.write: render the record and fan out to console, file and
html in that fixed order; the email and table sinks are not invoked. -/
def Root.writeRaw (rs : RootState) (record : LogRecord) (env : Env) :
    RootState × List Effect × Option PyError :=
  let text := renderRecord record
  let cr := Console.write rs.console text
  let rs := { rs with console := cr.1 }
  match cr.2.2 with
  | some e => (rs, cr.2.1, some e)
  | none =>
    let fr := File.write rs.file text env
    let rs := { rs with file := fr.1 }
    match fr.2.2 with
    | some e => (rs, cr.2.1 ++ fr.2.1, some e)
    | none =>
      let hr := HTML.write rs.html text
      ({ rs with html := hr.1 }, cr.2.1 ++ fr.2.1 ++ hr.2.1, hr.2.2)

/-- Root.write, gated. -/
def Root.write (rs : RootState) (record : LogRecord) (env : Env) :
    RootState × List Effect × Option PyError :=
  you_shall_not_pass RootState.status (fun s => Root.writeRaw s record env) rs

/-- Output.open inherited by Root. -/
def Root.openOutput (rs : RootState) : RootState := { rs with status := true }

/-- Output.close inherited by Root. -/
def Root.closeOutput (rs : RootState) : RootState := { rs with status := false }

/-- Embedding of Email.alarm: gated on the email sink; composes the subject
from the application name, wraps the logger header in a pre block, attaches
the current log file when requested and the file output is enabled, and
delegates to send with the configured recipients. -/
def Email.alarm (rs : RootState) (with_log : Bool) (env : Env) :
    RootState × List Effect × Option PyError :=
  if rs.email.status then
    let subject := "ALARM in " ++ env.app ++ "!"
    let text := "<pre>" ++ env.header ++ "</pre>"
    let recips := rs.email.recipients.map StrOrList.l
    if with_log && rs.file.status then
      match rs.file.path with
      | none => (rs, [], some (PyError.attributeError "_path"))
      | some p =>
        let r := Email.send rs.email subject (some (StrOrList.s text)) recips
          (some (StrOrList.s p)) env
        ({ rs with email := r.1 }, r.2.1, r.2.2)
    else
      let r := Email.send rs.email subject (some (StrOrList.s text)) recips
        none env
      ({ rs with email := r.1 }, r.2.1, r.2.2)
  else (rs, [], none)

/-- Effects belonging to the file sink. -/
def Effect.isFileEffect : Effect → Bool
  | .mkdirs _ => true
  | .openAppend _ => true
  | .fileWrite _ _ => true
  | .fileFlush _ => true
  | _ => false

/-- Effects belonging to the email or table sinks (network and database
traffic). -/
def Effect.isNetworkOrDb : Effect → Bool
  | .smtpConnect _ _ => true
  | .startTls => true
  | .smtpLogin _ => true
  | .smtpQuit => true
  | .smtpSend _ _ => true
  | .dbConnect => true
  | .dbClose => true
  | .dbInsert _ => true
  | .dbUpdate _ _ => true
  | _ => false

/-- A default environment for concrete evaluations. -/
def envC : Env := {}

/-- A disabled console. -/
def consoleOff : ConsoleState := { status := false }

/-- A disabled file sink with no resolved path yet. -/
def fileOff : FileState :=
  { status := false, dir := "logs", name := "run", ext := "log",
    path := none, handler := none, modified := none, size := none }

/-- A disabled email sink with nothing configured. -/
def emailOff : EmailState :=
  { status := false, address := none, host := none, port := none,
    tls := none, user := none, password := none, recipients := none,
    server := false }

/-- A disabled html sink. -/
def htmlOff : HTMLState := { status := false }

/-- A disabled table sink with nothing configured. -/
def tableOff : TableState :=
  { status := false, name := none, database := none, proxy := none,
    date_column := none, primary_key := none, primary_key_column := none }

/-- A disabled root with all sinks disabled. -/
def rootOff : RootState :=
  { status := false, console := consoleOff, file := fileOff,
    email := emailOff, html := htmlOff, table := tableOff }

/-- An in-memory sqlite database object. -/
def dbSqlite : DatabaseModel :=
  { vendor := some "sqlite", driver := none, path := none, host := none,
    port := none, sid := none, service := none, user := none,
    engine := EngineModel.created "sqlite://" }

/-- A table proxy with a single primary key column. -/
def proxyOne : TableProxy := { name := "log", primaryKeyCols := ["id"] }

/-- An empty logging table. -/
def worldEmpty : DbWorld := { rows := [], nextKey := 1 }

/-- A disabled table sink that already holds a database object. -/
def tableOffDb : TableState := { tableOff with database := some dbSqlite }

/-- C2: the claim says every mutating operation on a disabled output has
zero observable side effects, no state change and no error.  The configure
methods are not gated: on a disabled email sink, configure still changes
the stored host, and on a disabled table sink, configure still performs a
database connection attempt and can even raise a TypeError. -/
theorem C2_counterexample :
    (Email.configure emailOff { host := PyArg.val "smtp.example.com" }
      envC).1 ≠ emailOff ∧
    Effect.dbConnect ∈
      (Table.configure tableOffDb PyArg.none none none none {} envC).2.1 ∧
    (Table.configure tableOffDb PyArg.none none none none {} envC).2.2 ≠
      none := by
  decide

/-- C2 amended: every operation wrapped by the you_shall_not_pass gate
(router write; console, file, html and email writes; file new; email
connect, disconnect, send and alarm; table new and write) is a complete
no-op on a disabled output: unchanged state, no effects, no error; and the
inherited open and close operations set the status to true and to false.
The configure methods, however, are not gated (see the counterexample). -/
theorem C2_gated_noop
    (rs rsA : RootState) (cs : ConsoleState) (fs : FileState)
    (es : EmailState) (hs : HTMLState) (ts : TableState) (w : DbWorld)
    (env : Env) (record : LogRecord) (text : String) (pw : Option String)
    (subject : String) (mt rc att : Option StrOrList) (wl : Bool)
    (vals : List (String × String))
    (hrs : rs.status = false) (hcs : cs.status = false)
    (hfs : fs.status = false) (hes : es.status = false)
    (hhs : hs.status = false) (hts : ts.status = false)
    (hrsA : rsA.email.status = false) :
    Root.write rs record env = (rs, [], none) ∧
    Console.write cs text = (cs, [], none) ∧
    File.new fs env = (fs, [], none) ∧
    File.write fs text env = (fs, [], none) ∧
    Email.connect es pw env = (es, [], none) ∧
    Email.disconnect es = (es, [], none) ∧
    Email.send es subject mt rc att env = (es, [], none) ∧
    Email.write es text = (es, [], none) ∧
    HTML.write hs text = (hs, [], none) ∧
    Table.new ts = (ts, [], none) ∧
    Table.write ts w vals env = (ts, w, [], none) ∧
    Email.alarm rsA wl env = (rsA, [], none) ∧
    (Console.openOutput cs).status = true ∧
    (Console.closeOutput cs).status = false ∧
    (File.openOutput fs).status = true ∧
    (File.closeOutput fs).status = false ∧
    (Email.openOutput es).status = true ∧
    (Email.closeOutput es).status = false ∧
    (HTML.openOutput hs).status = true ∧
    (HTML.closeOutput hs).status = false ∧
    (Table.openOutput ts).status = true ∧
    (Table.closeOutput ts).status = false ∧
    (Root.openOutput rs).status = true ∧
    (Root.closeOutput rs).status = false :=
  ⟨by simp [Root.write, you_shall_not_pass, hrs],
   by simp [Console.write, you_shall_not_pass, hcs],
   by simp [File.new, you_shall_not_pass, hfs],
   by simp [File.write, you_shall_not_pass, hfs],
   by simp [Email.connect, you_shall_not_pass, hes],
   by simp [Email.disconnect, you_shall_not_pass, hes],
   by simp [Email.send, you_shall_not_pass, hes],
   by simp [Email.write, you_shall_not_pass, hes],
   by simp [HTML.write, you_shall_not_pass, hhs],
   by simp [Table.new, you_shall_not_pass, hts],
   by simp [Table.write, hts],
   by simp [Email.alarm, hrsA],
   rfl, rfl, rfl, rfl, rfl, rfl, rfl, rfl, rfl, rfl, rfl, rfl⟩

/-- C2 witness: the amended no-op property evaluated on concrete disabled
outputs. -/
theorem C2_gated_noop_witness :
    Root.write rootOff (LogRecord.str "x") envC = (rootOff, [], none) ∧
    Table.write tableOff worldEmpty [("a", "1")] envC =
      (tableOff, worldEmpty, [], none) := by
  have h := C2_gated_noop rootOff rootOff consoleOff fileOff emailOff htmlOff
    tableOff worldEmpty envC (LogRecord.str "x") "x" none "s" none none none
    true [("a", "1")] rfl rfl rfl rfl rfl rfl rfl
  exact ⟨h.1, h.2.2.2.2.2.2.2.2.2.2.1⟩

/-- C7: the claim says a comma-joined recipients string is split at the
commas and trimmed of surrounding spaces.  The code removes every space
before splitting, so a recipient containing an internal space is mangled
rather than trimmed: the stored list differs from the split-then-trim list
the claim describes. -/
theorem C7_counterexample :
    (Email.configure emailOff
      { recipients := PyArg.val (StrOrList.s "John Doe a@x.com, b@x.com") }
      envC).1.recipients = some ["JohnDoea@x.com", "b@x.com"] ∧
    specNormalizeRecipients (StrOrList.s "John Doe a@x.com, b@x.com") =
      ["John Doe a@x.com", "b@x.com"] ∧
    normalizeRecipients (StrOrList.s "John Doe a@x.com, b@x.com") ≠
      specNormalizeRecipients (StrOrList.s "John Doe a@x.com, b@x.com") := by
  decide

/-- C7 amended: a recipients string holding a comma has every space removed
(not only surrounding spaces) and is then split at the commas; a bare
string with no comma is stored as a singleton list unchanged; a list is
stored as given; so the stored recipients field is always a list after a
configuration with a string or list value. -/
theorem C7_recipients_normalization
    (es : EmailState) (env : Env) (v : StrOrList) (x : String)
    (xs : List String) :
    (Email.configure es { recipients := PyArg.val v } env).1.recipients =
      some (normalizeRecipients v) ∧
    (pyContains x ',' = true →
      normalizeRecipients (StrOrList.s x) = pySplit (pyRemove x ' ') ',') ∧
    (pyContains x ',' = false → normalizeRecipients (StrOrList.s x) = [x]) ∧
    normalizeRecipients (StrOrList.l xs) = xs ∧
    ((Email.configure es { recipients := PyArg.val v } env).1.recipients).isSome
      = true := by
  refine ⟨?_, ?_, ?_, rfl, ?_⟩
  · simp [Email.configure, Email.applyFields, PyArg.isNotNone, PyArg.store]
  · intro h; simp [normalizeRecipients, h]
  · intro h; simp [normalizeRecipients, h]
  · simp [Email.configure, Email.applyFields, PyArg.isNotNone, PyArg.store]

/-- C7 witness: the amended normalization evaluated on the claim's own
example. -/
theorem C7_recipients_normalization_witness :
    (Email.configure emailOff
      { recipients := PyArg.val (StrOrList.s "a@x.com, b@x.com") }
      envC).1.recipients = some ["a@x.com", "b@x.com"] := by
  have h := C7_recipients_normalization emailOff envC
    (StrOrList.s "a@x.com, b@x.com") "a@x.com, b@x.com" []
  rw [h.1]
  decide

/-- An enabled email sink with an open session and one configured default
recipient. -/
def emailOnDefault : EmailState :=
  { status := true, address := some "me@x.com", host := some "smtp.x",
    port := some 25, tls := none, user := none, password := none,
    recipients := some ["a@x.com"], server := true }

/-- C8: the claim says the explicit recipients argument overrides the
configured default and that a message is transmitted only if at least one
recipient resolves.  An explicit empty list is falsy, so it does not
override the default: the message is transmitted to the configured default
recipients although the explicit argument names none. -/
theorem C8_counterexample :
    (Email.send emailOnDefault "subj" none (some (StrOrList.l [])) none
      envC).2.1 = [Effect.smtpSend "a@x.com" "subj"] := by
  decide

/-- C8 amended: recipient resolution is the Python or of the explicit
argument and the configured default (a falsy explicit value, such as an
empty list or empty string, falls back to the default); with no attachment
and an open session, a message is transmitted exactly when the resolved
recipients value is not None, and a send call whose resolution is None
does nothing at all. -/
theorem C8_send_resolution
    (es : EmailState) (subject : String) (mt rc : Option StrOrList)
    (env : Env) (hstat : es.status = true) (hsrv : es.server = true) :
    (Email.send es subject mt rc none env).2.1 =
      (match resolveRecipients rc es.recipients with
       | some r => [Effect.smtpSend (recipientsLine r) subject]
       | none => []) ∧
    (Email.send es subject mt rc none env).2.2 = none ∧
    (resolveRecipients rc es.recipients = none →
      Email.send es subject mt rc none env = (es, [], none)) := by
  cases hr : resolveRecipients rc es.recipients with
  | none => simp [Email.send, you_shall_not_pass, hstat, Email.sendRaw, hr]
  | some r =>
    simp [Email.send, you_shall_not_pass, hstat, Email.sendRaw, hr, hsrv]

/-- C8 witness: a send with no explicit argument transmits to the
configured default, and a send on a sink with no default and no explicit
argument performs no network call. -/
theorem C8_send_resolution_witness :
    (Email.send emailOnDefault "subj" none none none envC).2.1 =
      [Effect.smtpSend "a@x.com" "subj"] ∧
    Email.send { emailOnDefault with recipients := none } "subj" none none
      none envC = ({ emailOnDefault with recipients := none }, [], none) := by
  have h1 := C8_send_resolution emailOnDefault "subj" none none envC rfl rfl
  have h2 := C8_send_resolution { emailOnDefault with recipients := none }
    "subj" none none envC rfl rfl
  exact ⟨by rw [h1.1]; decide, h2.2.2 (by decide)⟩

/-- C5: Email.connect on an enabled sink raises a configuration error when
the host is not a set string; raises a configuration error when the port is
not a set integer, before any socket is opened (no effects at all); with
host and port valid and a user set, a None password raises a configuration
error; and otherwise a login is performed, after a TLS upgrade when tls is
true. -/
theorem C5_email_connect_preconditions
    (es : EmailState) (env : Env) (pw : Option String)
    (hstat : es.status = true) :
    (es.host = none →
      Email.connect es pw env =
        (es, [], some (PyError.attributeError "incorrect host"))) ∧
    (∀ h, es.host = some h → es.port = none →
      Email.connect es pw env =
        (es, [], some (PyError.attributeError "incorrect port"))) ∧
    (∀ h p u, es.host = some h → es.port = some p → es.user = some u →
      pw = none → env.smtpOk = true →
      Email.connect es pw env =
        ({ es with server := true },
         (if es.tls = some true then [Effect.smtpConnect h p, Effect.startTls]
          else [Effect.smtpConnect h p]),
         some (PyError.attributeError "can not login without a password"))) ∧
    (∀ h p u pws, es.host = some h → es.port = some p → es.user = some u →
      pw = some pws → env.smtpOk = true → env.loginOk = true →
      Email.connect es pw env =
        ({ es with server := true },
         (if es.tls = some true then [Effect.smtpConnect h p, Effect.startTls]
          else [Effect.smtpConnect h p]) ++ [Effect.smtpLogin u], none)) := by
  refine ⟨?_, ?_, ?_, ?_⟩
  · intro hh
    simp [Email.connect, you_shall_not_pass, hstat, Email.connectRaw, hh]
  · intro h hh hp
    simp [Email.connect, you_shall_not_pass, hstat, Email.connectRaw, hh, hp]
  · intro h p u hh hp hu hpw hok
    simp [Email.connect, you_shall_not_pass, hstat, Email.connectRaw, hh, hp,
      hu, hpw, hok]
  · intro h p u pws hh hp hu hpw hok hlog
    simp [Email.connect, you_shall_not_pass, hstat, Email.connectRaw, hh, hp,
      hu, hpw, hok, hlog]

/-- An enabled email sink with host set but port unset. -/
def emailNoPort : EmailState :=
  { status := true, address := none, host := some "smtp.x", port := none,
    tls := none, user := none, password := none, recipients := none,
    server := false }

/-- An enabled email sink with host, port and user set. -/
def emailWithUser : EmailState :=
  { status := true, address := none, host := some "smtp.x", port := some 25,
    tls := none, user := some "u", password := none, recipients := none,
    server := false }

/-- C5 witness: the three outcomes evaluated on concrete sinks: port unset
raises before any socket, a None password raises after the socket, and a
full configuration logs in. -/
theorem C5_email_connect_preconditions_witness :
    Email.connect emailNoPort none envC =
      (emailNoPort, [], some (PyError.attributeError "incorrect port")) ∧
    Email.connect emailWithUser none envC =
      ({ emailWithUser with server := true }, [Effect.smtpConnect "smtp.x" 25],
       some (PyError.attributeError "can not login without a password")) ∧
    Email.connect emailWithUser (some "pw") envC =
      ({ emailWithUser with server := true },
       [Effect.smtpConnect "smtp.x" 25, Effect.smtpLogin "u"], none) := by
  have h1 := (C5_email_connect_preconditions emailNoPort envC none rfl).2.1
    "smtp.x" rfl rfl
  have h2 := (C5_email_connect_preconditions emailWithUser envC none
    rfl).2.2.1 "smtp.x" 25 "u" rfl rfl rfl rfl rfl
  have h3 := (C5_email_connect_preconditions emailWithUser envC (some "pw")
    rfl).2.2.2 "smtp.x" 25 "u" "pw" rfl rfl rfl rfl rfl rfl
  exact ⟨h1, by rw [h2]; decide, by rw [h3]; decide⟩

/-- The field updates of Email.configure never touch the status flag. -/
theorem Email.applyFields_status (es : EmailState) (a : EmailArgs) :
    (Email.applyFields es a).status = es.status := by
  unfold Email.applyFields
  cases a.recipients <;> rfl

/-- C4: on an enabled email sink, a configure call that triggers a failing
connect or login swallows the exception, force-disables the sink and
reports a warning to the owning logger; on an enabled table sink holding a
database, a failing health check does the same; neither raises to the
caller, and subsequent send and write calls on the disabled sinks are
silent no-ops. -/
theorem C4_connectivity_disable
    (es : EmailState) (a : EmailArgs) (env : Env) (st2 : EmailState)
    (effs : List Effect) (err : PyError) (ts : TableState)
    (d : DatabaseModel) (nm : PyArg String) (dc : Option String)
    (kw : DbKwargs) (w : DbWorld) (vals : List (String × String))
    (subject : String) (mt rc att : Option StrOrList)
    (hes : es.status = true)
    (htrig : (a.host.isNotNone || a.port.isNotNone || a.user.isNotNone ||
      a.password.isSome) = true)
    (hfail : Email.connectRaw (Email.applyFields es a) a.password env =
      (st2, effs, some err))
    (hts : ts.status = true) (hdb : ts.database = some d)
    (hdbfail : env.dbOk = false) :
    Email.configure es a env =
      ({ st2 with status := false }, effs ++ [Effect.warning], none) ∧
    Email.send { st2 with status := false } subject mt rc att env =
      ({ st2 with status := false }, [], none) ∧
    Email.write { st2 with status := false } "x" =
      ({ st2 with status := false }, [], none) ∧
    Table.configure ts nm none none dc kw env =
      ({ (match nm with
          | .val s => { ts with name := some (pyLower s) }
          | _ => ts) with status := false },
       [Effect.dbConnect, Effect.warning], none) ∧
    Table.write { ts with status := false } w vals env =
      ({ ts with status := false }, w, [], none) := by
  have hst1 : (Email.applyFields es a).status = true := by
    rw [Email.applyFields_status, hes]
  refine ⟨?_, ?_, ?_, ?_, ?_⟩
  · simp [Email.configure, htrig, Email.connect, you_shall_not_pass, hst1,
      hfail]
  · simp [Email.send, you_shall_not_pass]
  · simp [Email.write, you_shall_not_pass]
  · cases nm <;> simp [Table.configure, hdb, hdbfail]
  · simp [Table.write]

/-- An enabled email sink with nothing configured. -/
def emailOnBare : EmailState := { emailOff with status := true }

/-- The state emailOnBare reaches after configure stored host smtp.x. -/
def emailHostOnly : EmailState :=
  { emailOff with status := true, host := some "smtp.x" }

/-- An enabled table sink holding a database object. -/
def tableOnDb : TableState :=
  { tableOff with status := true, database := some dbSqlite }

/-- An environment whose database server refuses connections. -/
def envDbFail : Env := { dbOk := false }

/-- C4 witness: a failing email connect during configure (port never set)
and a failing table health check, both evaluated concretely: the sinks end
disabled, a warning is reported, and no exception escapes. -/
theorem C4_connectivity_disable_witness :
    Email.configure emailOnBare { host := PyArg.val "smtp.x" } envDbFail =
      ({ emailHostOnly with status := false }, [Effect.warning], none) ∧
    Table.configure tableOnDb PyArg.none none none none {} envDbFail =
      ({ tableOnDb with status := false },
       [Effect.dbConnect, Effect.warning], none) := by
  have h := C4_connectivity_disable emailOnBare
    { host := PyArg.val "smtp.x" } envDbFail emailHostOnly []
    (PyError.attributeError "incorrect port") tableOnDb dbSqlite PyArg.none
    none {} worldEmpty [] "s" none none none rfl rfl (by decide) rfl rfl rfl
  exact ⟨h.1, h.2.2.2.1⟩

/-- C6: configuring the table sink with a proxy whose primary key resolves
to zero columns or to more than one column raises the ValueError to the
caller: no warning is reported, the status is not touched (the failure is
not converted into a disable), and the stored primary key column and
session key are left unchanged, so the sink stays unusable for keyed
updates until reconfigured with a valid single-column-key table. -/
theorem C6_primary_key_fatal
    (ts : TableState) (tp : TableProxy) (d : DatabaseModel) (env : Env)
    (nm : PyArg String) (dc : Option String) (kw : DbKwargs)
    (hdb : ts.database = some d) (hok : env.dbOk = true)
    (hbad : tp.primaryKeyCols.length ≠ 1) :
    (Table.configure ts nm none (some tp) dc kw env).2.1 =
      [Effect.dbConnect, Effect.dbClose] ∧
    (Table.configure ts nm none (some tp) dc kw env).2.2 =
      some (PyError.valueError "primary key number should be 1") ∧
    ((Table.configure ts nm none (some tp) dc kw env).1).status = ts.status ∧
    ((Table.configure ts nm none (some tp) dc kw env).1).primary_key_column =
      ts.primary_key_column ∧
    ((Table.configure ts nm none (some tp) dc kw env).1).primary_key =
      ts.primary_key := by
  rcases hcols : tp.primaryKeyCols with _ | ⟨c, _ | ⟨c2, rest2⟩⟩
  · cases nm <;> cases dc <;>
      simp [Table.configure, hdb, hok, Table.getPrimaryKeyColumn, hcols]
  · exact absurd (by rw [hcols]; rfl) hbad
  · cases nm <;> cases dc <;>
      simp [Table.configure, hdb, hok, Table.getPrimaryKeyColumn, hcols]

/-- A table proxy whose primary key spans two columns. -/
def proxyTwo : TableProxy := { name := "log", primaryKeyCols := ["a", "b"] }

/-- C6 witness: a two-column primary key evaluated concretely: the
ValueError propagates and no warning or disable happens. -/
theorem C6_primary_key_fatal_witness :
    (Table.configure tableOnDb PyArg.none none (some proxyTwo) none {}
      envC).2.2 = some (PyError.valueError "primary key number should be 1") ∧
    ((Table.configure tableOnDb PyArg.none none (some proxyTwo) none {}
      envC).1).status = true := by
  have h := C6_primary_key_fatal tableOnDb proxyTwo dbSqlite envC PyArg.none
    none {} rfl rfl (by decide)
  exact ⟨h.2.1, h.2.2.1⟩

/-- C1: the table sink state machine.  On an enabled, configured sink in
the Fresh state (no primary key), write inserts a row with the given field
values, captures the generated key and moves to Bound; every further write
while Bound updates the row matching the stored key (a dbUpdate, never a
second insert, and the row count is unchanged); new() clears the key, and
the next write after new() inserts a fresh row again. -/
theorem C1_table_state_machine
    (st : TableState) (w : DbWorld) (env : Env)
    (vals vals2 vals3 : List (String × String))
    (d : DatabaseModel) (tp : TableProxy) (pkc : String)
    (hstat : st.status = true) (hdb : st.database = some d)
    (hpx : st.proxy = some tp) (hfresh : st.primary_key = none)
    (hpkc : st.primary_key_column = some pkc) (hdbok : env.dbOk = true) :
    Table.write st w vals env =
      ({ st with primary_key := some w.nextKey },
       { rows := w.rows ++ [(w.nextKey, Table.applyDate st vals env)],
         nextKey := w.nextKey + 1 },
       [Effect.dbConnect, Effect.dbInsert (Table.applyDate st vals env),
        Effect.dbClose], none) ∧
    (∀ w1 : DbWorld,
      Table.write { st with primary_key := some w.nextKey } w1 vals2 env =
        ({ st with primary_key := some w.nextKey },
         { w1 with rows := w1.rows.map (fun r =>
             if r.1 == w.nextKey then
               (r.1, setItems r.2 (Table.applyDate st vals2 env))
             else r) },
         [Effect.dbConnect,
          Effect.dbUpdate w.nextKey (Table.applyDate st vals2 env),
          Effect.dbClose], none)) ∧
    (∀ w1 : DbWorld,
      ((Table.write { st with primary_key := some w.nextKey } w1 vals2
        env).2.1).rows.length = w1.rows.length) ∧
    Table.new { st with primary_key := some w.nextKey } =
      ({ st with primary_key := none }, [], none) ∧
    (∀ w2 : DbWorld,
      Table.write { st with primary_key := none } w2 vals3 env =
        ({ st with primary_key := some w2.nextKey },
         { rows := w2.rows ++ [(w2.nextKey, Table.applyDate st vals3 env)],
           nextKey := w2.nextKey + 1 },
         [Effect.dbConnect, Effect.dbInsert (Table.applyDate st vals3 env),
          Effect.dbClose], none)) := by
  refine ⟨?_, ?_, ?_, ?_, ?_⟩
  · simp [Table.write, Table.writeRaw, hstat, hdb, hpx, hfresh, hdbok]
  · intro w1
    simp [Table.write, Table.writeRaw, hstat, hdb, hpx, hpkc, hdbok,
      Table.applyDate]
  · intro w1
    simp [Table.write, Table.writeRaw, hstat, hdb, hpx, hpkc, hdbok]
  · simp [Table.new, you_shall_not_pass, hstat]
  · intro w2
    simp [Table.write, Table.writeRaw, hstat, hdb, hpx, hdbok,
      Table.applyDate]

/-- An enabled, fully configured table sink in the Fresh state. -/
def tableReady : TableState :=
  { status := true, name := some "log", database := some dbSqlite,
    proxy := some proxyOne, date_column := none, primary_key := none,
    primary_key_column := some "id" }

/-- C1 witness: the insert-then-update session evaluated concretely: the
first write inserts row 1 and binds the key, the second write updates that
same row and leaves the row count at one. -/
theorem C1_table_state_machine_witness :
    Table.write tableReady worldEmpty [("a", "1")] envC =
      ({ tableReady with primary_key := some 1 },
       { rows := [(1, [("a", "1")])], nextKey := 2 },
       [Effect.dbConnect, Effect.dbInsert [("a", "1")], Effect.dbClose],
       none) ∧
    Table.write { tableReady with primary_key := some 1 }
      { rows := [(1, [("a", "1")])], nextKey := 2 } [("a", "2")] envC =
      ({ tableReady with primary_key := some 1 },
       { rows := [(1, [("a", "2")])], nextKey := 2 },
       [Effect.dbConnect, Effect.dbUpdate 1 [("a", "2")], Effect.dbClose],
       none) := by
  have h := C1_table_state_machine tableReady worldEmpty envC [("a", "1")]
    [("a", "2")] [("a", "3")] dbSqlite proxyOne "id" rfl rfl rfl rfl rfl rfl
  refine ⟨h.1, ?_⟩
  have h2 := h.2.1 { rows := [(1, [("a", "1")])], nextKey := 2 }
  exact h2.trans (by decide)

/-- All effects produced by the final write-and-flush step of File.write
belong to the file sink. -/
theorem File.writeCommit_effects (fs : FileState) (p text : String)
    (effs : List Effect) (env : Env)
    (h : ∀ e ∈ effs, e.isFileEffect = true) :
    ∀ e ∈ (File.writeCommit fs p text effs env).2.1, e.isFileEffect = true := by
  intro e he
  unfold File.writeCommit at he
  split at he
  · rcases List.mem_append.mp he with h1 | h2
    · exact h e h1
    · simp at h2
      rcases h2 with rfl | rfl <;> rfl
  · exact h e he

/-- All effects produced by the body of File.write belong to the file
sink. -/
theorem File.writeRaw_effects (fs : FileState) (text : String) (env : Env) :
    ∀ e ∈ (File.writeRaw fs text env).2.1, e.isFileEffect = true := by
  intro e he
  have hcommit : ∀ (fs2 : FileState) (p : String) (effs : List Effect),
      (∀ x ∈ effs, Effect.isFileEffect x = true) →
      e ∈ (File.writeCommit fs2 p text effs env).2.1 →
      e.isFileEffect = true :=
    fun fs2 p effs h hm => File.writeCommit_effects fs2 p text effs env h e hm
  unfold File.writeRaw at he
  rcases hh : fs.handler with _ | p
  case some =>
    rw [hh] at he
    exact hcommit _ _ [] (by simp) he
  case none =>
    rw [hh] at he
    rcases hp : fs.path with _ | p
    case none =>
      rw [hp] at he
      simp at he
    case some =>
      rw [hp] at he
      by_cases hde : env.dirExists (env.dirname p) = true
      · by_cases hop : env.openOk = true
        · simp only [hde, hop, if_true] at he
          refine hcommit _ _ _ ?_ he
          intro x hx
          simp at hx
          subst hx
          rfl
        · simp [hde, hop] at he
          subst he
          rfl
      · by_cases hmk : env.mkdirsOk = true
        · by_cases hop : env.openOk = true
          · simp only [hde, hmk, hop, if_true, if_false,
              Bool.not_eq_true] at he
            refine hcommit _ _ _ ?_ he
            intro x hx
            simp at hx
            rcases hx with rfl | rfl <;> rfl
          · simp [hde, hmk, hop] at he
            rcases he with rfl | rfl <;> rfl
        · simp [hde, hmk] at he
          subst he
          rfl

/-- All effects produced by File.write belong to the file sink. -/
theorem File.write_effects (fs : FileState) (text : String) (env : Env) :
    ∀ e ∈ (File.write fs text env).2.1, e.isFileEffect = true := by
  intro e he
  unfold File.write you_shall_not_pass at he
  split at he
  · exact File.writeRaw_effects fs text env e he
  · simp at he

/-- HTML.write is a no-op whatever the status. -/
theorem HTML.write_noop (hs : HTMLState) (t : String) :
    HTML.write hs t = (hs, [], none) := by
  unfold HTML.write you_shall_not_pass
  split <;> rfl

/-- A file effect is never email or table traffic. -/
theorem Effect.file_not_network (e : Effect) (h : e.isFileEffect = true) :
    e.isNetworkOrDb = false := by
  cases e <;> simp_all [Effect.isFileEffect, Effect.isNetworkOrDb]

/-- C3: on an enabled router (with console enabled), write renders the
record to text and fans out to the console first and then to the file sink
with the same text: the effect trace is the console write followed by only
file-sink effects, any file error is exactly the router error (the console
write is never rolled back), and no email or table traffic ever occurs. -/
theorem C3_router_fanout
    (rs : RootState) (record : LogRecord) (env : Env)
    (hr : rs.status = true) (hc : rs.console.status = true) :
    (Root.write rs record env).2.1 =
      Effect.consoleWrite (renderRecord record) ::
        (File.write rs.file (renderRecord record) env).2.1 ∧
    (∀ e ∈ (File.write rs.file (renderRecord record) env).2.1,
      e.isFileEffect = true) ∧
    (Root.write rs record env).2.2 =
      (File.write rs.file (renderRecord record) env).2.2 ∧
    (∀ e ∈ (Root.write rs record env).2.1, e.isNetworkOrDb = false) := by
  have h13 : (Root.write rs record env).2.1 =
      Effect.consoleWrite (renderRecord record) ::
        (File.write rs.file (renderRecord record) env).2.1 ∧
      (Root.write rs record env).2.2 =
        (File.write rs.file (renderRecord record) env).2.2 := by
    cases ferr : (File.write rs.file (renderRecord record) env).2.2 <;>
      simp [Root.write, you_shall_not_pass, hr, Root.writeRaw, Console.write,
        Console.writeRaw, hc, HTML.write_noop, ferr]
  refine ⟨h13.1, File.write_effects _ _ _, h13.2, ?_⟩
  intro e he
  rw [h13.1] at he
  rcases List.mem_cons.mp he with rfl | hmem
  · rfl
  · exact Effect.file_not_network e
      (File.write_effects rs.file (renderRecord record) env e hmem)

/-- An enabled file sink with a resolved path and no open handler. -/
def fileReady : FileState :=
  { status := true, dir := "logs", name := "run", ext := "log",
    path := some "logs/run.log", handler := none, modified := none,
    size := none }

/-- An enabled root with console and file enabled. -/
def rootOn : RootState :=
  { status := true, console := { status := true }, file := fileReady,
    email := emailOff, html := htmlOff, table := tableOff }

/-- C3 witness: the fan-out evaluated concretely: a structured record is
rendered and the console receives the text first, with no error. -/
theorem C3_router_fanout_witness :
    ((Root.write rootOn (LogRecord.record "hello") envC).2.1).head? =
      some (Effect.consoleWrite "hello") ∧
    (Root.write rootOn (LogRecord.record "hello") envC).2.2 = none := by
  have h := C3_router_fanout rootOn (LogRecord.record "hello") envC rfl rfl
  constructor
  · rw [h.1]
    rfl
  · rw [h.2.2.1]
    decide

/-- An enabled table sink with nothing configured. -/
def tableFresh : TableState := { tableOff with status := true }

/-- Vendor options dict selecting an in-memory sqlite database. -/
def kwSqlite : DbKwargs := { vendor := PyVal.vStr "sqlite" }

/-- An environment whose database knows the table named log. -/
def envLog : Env :=
  { lookupTable := fun n => if n = "log" then some proxyOne else none }

/-- C9: Table construction accepts the vendor options of the db
configuration dict as extra keyword arguments but does not forward them to
configure, so no Database is built and no health check runs at
construction, while Table.configure itself, given the very same options,
does build the Database from them and health-checks it. -/
theorem C9_table_init_drops_vendor_options :
    (Table.init () true (PyArg.val "log") none none none kwSqlite
      envLog).1.database = none ∧
    (Table.init () true (PyArg.val "log") none none none kwSqlite
      envLog).2.1 = [] ∧
    (Table.init () true (PyArg.val "log") none none none kwSqlite
      envLog).2.2 = none ∧
    (Table.configure tableFresh (PyArg.val "log") none none none kwSqlite
      envLog).1.database = some dbSqlite ∧
    Effect.dbConnect ∈
      (Table.configure tableFresh (PyArg.val "log") none none none kwSqlite
        envLog).2.1 := by
  decide

/-- C10: on a disabled file sink, configure updates the stored dir, name
and ext fields but, because the gated new() is a no-op, leaves the resolved
path, the handler and the modified and size statistics unchanged, raising
nothing and touching nothing else; consequently, once the sink is
re-enabled via open(), write appends to the previously resolved path. -/
theorem C10_file_configure_disabled_frame
    (fs : FileState) (d n e : PyArg String) (env : Env) (text p : String)
    (hstat : fs.status = false) (hpath : fs.path = some p)
    (hh : fs.handler = none) (hde : env.dirExists (env.dirname p) = true)
    (hop : env.openOk = true) (hwr : env.writeOk = true) :
    File.configure fs d n e env =
      ({ fs with dir := d.getD fs.dir, name := n.getD fs.name,
                 ext := e.getD fs.ext }, [], none) ∧
    (File.configure fs d n e env).1.path = fs.path ∧
    (File.configure fs d n e env).1.handler = fs.handler ∧
    (File.configure fs d n e env).1.modified = fs.modified ∧
    (File.configure fs d n e env).1.size = fs.size ∧
    (File.write (File.openOutput (File.configure fs d n e env).1) text
      env).2.1 =
      [Effect.openAppend p, Effect.fileWrite p text, Effect.fileFlush p] ∧
    (File.write (File.openOutput (File.configure fs d n e env).1) text
      env).1.handler = some p := by
  have hcfg : File.configure fs d n e env =
      ({ fs with dir := d.getD fs.dir, name := n.getD fs.name,
                 ext := e.getD fs.ext }, [], none) := by
    obtain ⟨st, dr, nm2, ex, pa, ha, mo, si⟩ := fs
    have hst : st = false := hstat
    subst hst
    cases d <;> cases n <;> cases e <;>
      simp [File.configure, File.new, you_shall_not_pass, PyArg.getD,
        PyArg.isNotNone]
  refine ⟨hcfg, ?_, ?_, ?_, ?_, ?_, ?_⟩ <;>
    simp [hcfg, File.openOutput, File.write, you_shall_not_pass,
      File.writeRaw, File.writeCommit, hpath, hh, hde, hop, hwr]

/-- A disabled file sink that still holds a previously resolved path. -/
def fileOffReady : FileState := { fileOff with path := some "logs/run.log" }

/-- C10 witness: a reconfiguration of the disabled sink changes dir only,
keeps the old path, and a write after re-enabling appends to the old
path. -/
theorem C10_file_configure_disabled_frame_witness :
    File.configure fileOffReady (PyArg.val "elsewhere") PyArg.none PyArg.none
      envC = ({ fileOffReady with dir := "elsewhere" }, [], none) ∧
    (File.write (File.openOutput (File.configure fileOffReady
      (PyArg.val "elsewhere") PyArg.none PyArg.none envC).1) "x" envC).2.1 =
      [Effect.openAppend "logs/run.log", Effect.fileWrite "logs/run.log" "x",
       Effect.fileFlush "logs/run.log"] := by
  have h := C10_file_configure_disabled_frame fileOffReady
    (PyArg.val "elsewhere") PyArg.none PyArg.none envC "x" "logs/run.log"
    rfl rfl rfl rfl rfl rfl
  exact ⟨h.1.trans (by decide), h.2.2.2.2.2.1⟩
